import Mathlib

/-!
Verification of the go-global Global Payments client library
(package `globalpayments`): the chained SHA-1 signature engine
(`serviceAuthenticator.buildSignature` / `hashAndEncode`), the eight
Card Storage operation request builders, the transmission pipeline's
response validation (`transmitRequest` / `validateResponseHash`), and
client construction (`NewClient`).

The Go sources are embedded shallowly: strings stay `String`, Go byte
slices become `List Nat` with bytes reduced mod 256, `nil` pointers to
nested groups become `Option`, and fallible Go functions return
`Except String`.  SHA-1 (Go `crypto/sha1`) and hex encoding
(Go `encoding/hex`) are implemented from their specifications as
executable functions so concrete signatures can be evaluated by
`decide`.
-/

set_option maxRecDepth 100000

namespace GlobalPayments

/-! ## Bytes, UTF-8, hex encoding (Go `string` bytes, `encoding/hex`) -/

/-- UTF-8 encoding of a single Unicode code point, as Go strings store
their characters.  Bytes are `Nat`s below 256. -/
def charUTF8 (c : Char) : List Nat :=
  let n := c.toNat
  if n < 0x80 then [n]
  else if n < 0x800 then
    [0xC0 ||| (n >>> 6), 0x80 ||| (n &&& 0x3F)]
  else if n < 0x10000 then
    [0xE0 ||| (n >>> 12), 0x80 ||| ((n >>> 6) &&& 0x3F), 0x80 ||| (n &&& 0x3F)]
  else
    [0xF0 ||| (n >>> 18), 0x80 ||| ((n >>> 12) &&& 0x3F),
     0x80 ||| ((n >>> 6) &&& 0x3F), 0x80 ||| (n &&& 0x3F)]

/-- The byte sequence of a Go string (UTF-8). -/
def strBytes (s : String) : List Nat :=
  s.data.flatMap charUTF8

/-- Lowercase hex alphabet, Go `encoding/hex`'s constant
`hextable = "0123456789abcdef"`. -/
def hexTable : List Char :=
  "0123456789abcdef".data

/-- Hex digit for a nibble; indices above 15 cannot arise from bytes
below 256 (Go would panic on them, the default keeps the function total). -/
def hexDigit (n : Nat) : Char :=
  hexTable.getD n '0'

/-- Character list of the hex encoding: two digits per byte. -/
def hexChars (bytes : List Nat) : List Char :=
  bytes.foldr (fun b acc => hexDigit (b / 16) :: hexDigit (b % 16) :: acc) []

/-- Go `hex.EncodeToString`: two lowercase hex digits per byte. -/
def hexEncode (bytes : List Nat) : String :=
  ⟨hexChars bytes⟩

/-! ## SHA-1 (Go `crypto/sha1`, FIPS 180-1) -/

/-- 2^32, the word modulus of SHA-1. -/
def wordMod : Nat := 4294967296

/-- Left-rotation of a 32-bit word. -/
def rotl (n w : Nat) : Nat :=
  (((w % wordMod) <<< n) % wordMod) ||| ((w % wordMod) >>> (32 - n))

/-- Big-endian 32-bit words from a byte list (length a multiple of 4). -/
def bytesToWords : List Nat → List Nat
  | a :: b :: c :: d :: rest =>
      (a * 16777216 + b * 65536 + c * 256 + d) :: bytesToWords rest
  | _ => []

/-- Big-endian 4-byte serialization of a 32-bit word. -/
def wordBytes (w : Nat) : List Nat :=
  [w >>> 24 % 256, w >>> 16 % 256, w >>> 8 % 256, w % 256]

/-- Big-endian 8-byte serialization of the 64-bit message bit length. -/
def lenBytes (n : Nat) : List Nat :=
  [n >>> 56 % 256, n >>> 48 % 256, n >>> 40 % 256, n >>> 32 % 256,
   n >>> 24 % 256, n >>> 16 % 256, n >>> 8 % 256, n % 256]

/-- SHA-1 message padding: `0x80`, zeros to 56 mod 64, then the bit
length big-endian. -/
def pad (msg : List Nat) : List Nat :=
  msg ++ 0x80 :: List.replicate ((119 - msg.length % 64) % 64) 0
      ++ lenBytes (8 * msg.length)

/-- Split a byte list into 64-byte chunks; `fuel` bounds the recursion
and is instantiated with the list length. -/
def chunksAux : Nat → List Nat → List (List Nat)
  | 0, _ => []
  | _, [] => []
  | fuel + 1, l => l.take 64 :: chunksAux fuel (l.drop 64)

/-- 64-byte chunks of a padded message. -/
def chunks (l : List Nat) : List (List Nat) :=
  chunksAux l.length l

/-- Message-schedule extension: starting from the 16 chunk words kept
newest-first, push 64 further words `rotl 1 (w3 ^^^ w8 ^^^ w14 ^^^ w16)`. -/
def extendSchedule (ws : List Nat) : List Nat :=
  (List.range 64).foldl
    (fun l _ =>
      rotl 1 (l.getD 2 0 ^^^ l.getD 7 0 ^^^ l.getD 13 0 ^^^ l.getD 15 0) :: l)
    ws

/-- The 80-word message schedule of one chunk. -/
def schedule (chunk : List Nat) : List Nat :=
  (extendSchedule (bytesToWords chunk).reverse).reverse

/-- Round function and constant for round `i`. -/
def roundFK (i b c d : Nat) : Nat × Nat :=
  if i < 20 then ((b &&& c) ||| ((b ^^^ 4294967295) &&& d), 0x5A827999)
  else if i < 40 then (b ^^^ c ^^^ d, 0x6ED9EBA1)
  else if i < 60 then ((b &&& c) ||| (b &&& d) ||| (c &&& d), 0x8F1BBCDC)
  else (b ^^^ c ^^^ d, 0xCA62C1D6)

/-- One SHA-1 compression round. -/
def round (st : Nat × Nat × Nat × Nat × Nat × Nat) (w : Nat) :
    Nat × Nat × Nat × Nat × Nat × Nat :=
  let (i, a, b, c, d, e) := st
  let (f, k) := roundFK i b c d
  let temp := (rotl 5 a + f + e + k + w) % wordMod
  (i + 1, temp, a, rotl 30 b, c, d)

/-- SHA-1 compression of one 64-byte chunk into the running state. -/
def compress (h : Nat × Nat × Nat × Nat × Nat) (chunk : List Nat) :
    Nat × Nat × Nat × Nat × Nat :=
  let (h0, h1, h2, h3, h4) := h
  let (_, a, b, c, d, e) :=
    (schedule chunk).foldl round (0, h0, h1, h2, h3, h4)
  ((h0 + a) % wordMod, (h1 + b) % wordMod, (h2 + c) % wordMod,
   (h3 + d) % wordMod, (h4 + e) % wordMod)

/-- Initial SHA-1 state. -/
def initH : Nat × Nat × Nat × Nat × Nat :=
  (0x67452301, 0xEFCDAB89, 0x98BADCFE, 0x10325476, 0xC3D2E1F0)

/-- SHA-1 digest (20 bytes) of a byte message. -/
def sha1 (msg : List Nat) : List Nat :=
  let (h0, h1, h2, h3, h4) := (chunks (pad msg)).foldl compress initH
  wordBytes h0 ++ wordBytes h1 ++ wordBytes h2 ++ wordBytes h3 ++ wordBytes h4

/-- Decidable equality for `Except`, so concrete signature computations
can be checked with `decide`. -/
instance {ε α : Type} [DecidableEq ε] [DecidableEq α] : DecidableEq (Except ε α) := by
  intro a b
  cases a <;> cases b
  case error.error e f =>
    exact if h : e = f then .isTrue (by rw [h]) else .isFalse (by simp [h])
  case error.ok e f => exact .isFalse (by simp)
  case ok.error e f => exact .isFalse (by simp)
  case ok.ok e f =>
    exact if h : e = f then .isTrue (by rw [h]) else .isFalse (by simp [h])

/-! ## Signature engine (`serviceAuthenticator`, src/unnamed/part_004) -/

/-- Go `serviceAuthenticator.hashAndEncode(sha1.New(), str)`: write the
string into a fresh SHA-1 hasher and hex-encode the digest.  The Go
error branch mirrors `io.WriteString`'s result; `crypto/sha1`'s writer
never returns an error, so the embedding always succeeds. -/
def hashAndEncode (str : String) : Except String String :=
  .ok (hexEncode (sha1 (strBytes str)))

/-- Go `serviceAuthenticator.buildSignature`: hash the `.`-joined
elements, then hash that hex digest followed by `.` and the shared
secret. -/
def buildSignature (elementsToHash : List String) (sharedSecret : String) :
    Except String String := do
  let hashedElementsString ← hashAndEncode (String.intercalate "." elementsToHash)
  let signature ← hashAndEncode (hashedElementsString ++ "." ++ sharedSecret)
  return signature

/-! ## Request data model (src/unnamed/part_003)

Go `nil` pointers to the optional nested groups become `Option`; the
unexported embedded `serviceAuthenticator` becomes the two fields
`elementsToHash` and `sharedSecret`. -/

/-- Go `Amount` struct: chardata value plus `currency` attribute. -/
structure Amount where
  Amount : String
  Currency : String
  deriving DecidableEq

/-- Go `AutoSettle` struct. -/
structure AutoSettle where
  Flag : String
  deriving DecidableEq

/-- Go `CVN` struct. -/
structure CVN where
  Number : String
  deriving DecidableEq

/-- Go `PaymentData` struct. -/
structure PaymentData where
  CVN : CVN
  deriving DecidableEq

/-- Go `Country` struct. -/
structure Country where
  Code : String
  deriving DecidableEq

/-- Go `Address` struct. -/
structure Address where
  Line1 : String
  Line2 : String
  Line3 : String
  City : String
  County : String
  PostCode : String
  Country : Option Country
  deriving DecidableEq

/-- Go `PhoneNumbers` struct. -/
structure PhoneNumbers where
  Home : String
  Work : String
  Fax : String
  Mobile : String
  deriving DecidableEq

/-- Go `Payer` struct. -/
structure Payer where
  Ref : String
  PayerType : String
  Title : String
  FirstName : String
  Surname : String
  Company : String
  Email : String
  DateOfBirth : String
  State : String
  PassPhrase : String
  VatNumber : String
  VariableReference : String
  CustomerNumber : String
  Address : Option Address
  PhoneNumbers : Option PhoneNumbers
  deriving DecidableEq

/-- Go `Card` struct. -/
structure Card where
  Ref : String
  PayerRef : String
  Number : String
  ExpDate : String
  CardHolderName : String
  «Type» : String
  deriving DecidableEq

/-- Go `CardStorageRequest`: the request for every Card Storage API,
including the embedded (unexported) `serviceAuthenticator` signing
context. -/
structure CardStorageRequest where
  «Type» : String := ""
  Timestamp : String := ""
  MerchantID : String := ""
  Account : String := ""
  Channel : String := ""
  OrderID : String := ""
  PayerRef : String := ""
  PaymentMethod : String := ""
  Sha1Hash : String := ""
  Amount : Option Amount := none
  AutoSettle : Option AutoSettle := none
  PaymentData : Option PaymentData := none
  Payer : Option Payer := none
  Card : Option Card := none
  elementsToHash : List String := []
  sharedSecret : String := ""
  deriving DecidableEq

/-! ### Nil-safe getters used within the hash (src/unnamed/part_003, 142-189) -/

/-- Go `CardStorageRequest.getPayerRef`: the `Payer` group's `Ref`, or
empty when the group is absent. -/
def CardStorageRequest.getPayerRef (request : CardStorageRequest) : String :=
  match request.Payer with
  | some payer => payer.Ref
  | none => ""

/-- Go `CardStorageRequest.getAmount`. -/
def CardStorageRequest.getAmount (request : CardStorageRequest) : String :=
  match request.Amount with
  | some amount => amount.Amount
  | none => ""

/-- Go `CardStorageRequest.getCurrency`. -/
def CardStorageRequest.getCurrency (request : CardStorageRequest) : String :=
  match request.Amount with
  | some amount => amount.Currency
  | none => ""

/-- Go `CardStorageRequest.getCardHolderName`. -/
def CardStorageRequest.getCardHolderName (request : CardStorageRequest) : String :=
  match request.Card with
  | some card => card.CardHolderName
  | none => ""

/-- Go `CardStorageRequest.getCardNumber`. -/
def CardStorageRequest.getCardNumber (request : CardStorageRequest) : String :=
  match request.Card with
  | some card => card.Number
  | none => ""

/-- Go `CardStorageRequest.getCardRef`. -/
def CardStorageRequest.getCardRef (request : CardStorageRequest) : String :=
  match request.Card with
  | some card => card.Ref
  | none => ""

/-- Go `CardStorageRequest.getCardExpDate`. -/
def CardStorageRequest.getCardExpDate (request : CardStorageRequest) : String :=
  match request.Card with
  | some card => card.ExpDate
  | none => ""

/-! ## Client configuration (src/unnamed/part_004, src/globalpayments/client.go) -/

/-- The parts of Go `url.URL` the library reads (`Path` for the
trailing-slash validation). -/
structure URL where
  Scheme : String
  Host : String
  Path : String
  deriving DecidableEq

/-- Go `Client` configuration record.  The `*http.Client` transport is
external I/O and not modeled; `CardStoragePath` stands for the
`CardStorage.service.Path` the constructor wires up. -/
structure Client where
  BaseURL : URL
  HashSecret : String
  RebateHashSecret : String
  MerchantID : String
  APIPath : String := ""
  CardStoragePath : String
  deriving DecidableEq

/-- Go constant `DefaultBaseURL` parsed by `url.Parse`:
`https://test.realexpayments.com` has an empty path component. -/
def defaultBaseURL : URL :=
  { Scheme := "https", Host := "test.realexpayments.com", Path := "" }

/-- The client assembled by `NewClient` before the caller's options are
applied: default sandbox constants. -/
def defaultClient : Client :=
  { BaseURL := defaultBaseURL
    HashSecret := "Po8lRRT67a"
    RebateHashSecret := "Po8lRRT67a"
    MerchantID := "realexsandbox"
    CardStoragePath := "/epage-remote.cgi" }

/-- Go `strings.HasSuffix(s, suffix)`: `s` ends with `suffix`. -/
def hasSuffix (s suffix : String) : Bool :=
  List.isSuffixOf suffix.data s.data

/-- Go `NewClient(options ...func(*Client))`: install defaults, apply
the option functions in order (the Go `for` loop), then fail exactly
when the configured base URL's path ends in `/`
(`strings.HasSuffix(client.BaseURL.Path, "/")`).  `url.Parse` of the
constant default URL cannot fail, so that error branch is dead. -/
def NewClient (options : List (Client → Client)) : Except String Client :=
  let client := options.foldl (fun c option => option c) defaultClient
  if hasSuffix client.BaseURL.Path "/" then
    .error "baseURL contains a trailing slash"
  else
    .ok client

/-! ## Operation request builders (src/unnamed/part_003, 194-325)

Each Go method takes the current time from the package-level `Now`
(`formatTime(Now(), "20060102150405")`); the time source is modeled as
`clock : String → String`, the `Format` method of the injected
`TimeFormatter`.  A builder returns `none` when the Go code would not
reach `transmitRequest` with a signed request: either the
nil-`Amount` dereference in `Authorize` (a runtime panic) or the dead
`buildSignature` error branch. -/

/-- Go `formatTime(t, layout)`: call the time source's `Format`. -/
def formatTime (t : String → String) (layout : String) : String :=
  t layout

/-- The timestamp layout every builder passes to `formatTime`: Go's
reference time `20060102150405`, i.e. compact `YYYYMMDDHHMMSS`. -/
def timestampLayout : String :=
  "20060102150405"

/-- Go `CardStorageService.Authorize`, request-preparation stage.  Note
the raw `request.Amount.Amount` / `request.Amount.Currency` pointer
dereferences: with `Amount = nil` the Go code panics, modeled as
`none`. -/
def Authorize (clock : String → String) (client : Client)
    (request : CardStorageRequest) : Option CardStorageRequest :=
  let request := { request with Timestamp := formatTime clock "20060102150405" }
  let request := { request with MerchantID := client.MerchantID }
  let request := { request with «Type» := "receipt-in" }
  match request.Amount with
  | none => none
  | some amount =>
    let request := { request with
      elementsToHash := [request.Timestamp, request.MerchantID, request.OrderID,
        amount.Amount, amount.Currency, request.PayerRef] }
    let request := { request with sharedSecret := client.HashSecret }
    match buildSignature request.elementsToHash request.sharedSecret with
    | .error _ => none
    | .ok signature => some { request with Sha1Hash := signature }

/-- Go `CardStorageService.Validate`, request-preparation stage. -/
def Validate (clock : String → String) (client : Client)
    (request : CardStorageRequest) : Option CardStorageRequest :=
  let request := { request with Timestamp := formatTime clock "20060102150405" }
  let request := { request with MerchantID := client.MerchantID }
  let request := { request with «Type» := "receipt-in-otb" }
  let request := { request with
    elementsToHash := [request.Timestamp, request.MerchantID, request.OrderID,
      request.PayerRef] }
  let request := { request with sharedSecret := client.HashSecret }
  match buildSignature request.elementsToHash request.sharedSecret with
  | .error _ => none
  | .ok signature => some { request with Sha1Hash := signature }

/-- Go `CardStorageService.Credit`, request-preparation stage: the one
builder that signs with the rebate secret. -/
def Credit (clock : String → String) (client : Client)
    (request : CardStorageRequest) : Option CardStorageRequest :=
  let request := { request with Timestamp := formatTime clock "20060102150405" }
  let request := { request with MerchantID := client.MerchantID }
  let request := { request with «Type» := "payment-out" }
  let request := { request with
    elementsToHash := [request.Timestamp, request.MerchantID, request.OrderID,
      request.getAmount, request.getCurrency, request.PayerRef] }
  let request := { request with sharedSecret := client.RebateHashSecret }
  match buildSignature request.elementsToHash request.sharedSecret with
  | .error _ => none
  | .ok signature => some { request with Sha1Hash := signature }

/-- Go `CardStorageService.CreateCustomer`, request-preparation stage.
Its sixth hash element is `request.getPayerRef()`, the `Payer` group's
`Ref`, unlike the header `PayerRef` field every other builder signs. -/
def CreateCustomer (clock : String → String) (client : Client)
    (request : CardStorageRequest) : Option CardStorageRequest :=
  let request := { request with Timestamp := formatTime clock "20060102150405" }
  let request := { request with MerchantID := client.MerchantID }
  let request := { request with «Type» := "payer-new" }
  let request := { request with
    elementsToHash := [request.Timestamp, request.MerchantID, request.OrderID,
      request.getAmount, request.getCurrency, request.getPayerRef] }
  let request := { request with sharedSecret := client.HashSecret }
  match buildSignature request.elementsToHash request.sharedSecret with
  | .error _ => none
  | .ok signature => some { request with Sha1Hash := signature }

/-- Go `CardStorageService.EditCustomer`, request-preparation stage. -/
def EditCustomer (clock : String → String) (client : Client)
    (request : CardStorageRequest) : Option CardStorageRequest :=
  let request := { request with Timestamp := formatTime clock "20060102150405" }
  let request := { request with MerchantID := client.MerchantID }
  let request := { request with «Type» := "payer-edit" }
  let request := { request with
    elementsToHash := [request.Timestamp, request.MerchantID, request.OrderID,
      request.getAmount, request.getCurrency, request.PayerRef] }
  let request := { request with sharedSecret := client.HashSecret }
  match buildSignature request.elementsToHash request.sharedSecret with
  | .error _ => none
  | .ok signature => some { request with Sha1Hash := signature }

/-- Go `CardStorageService.StoreCard`, request-preparation stage. -/
def StoreCard (clock : String → String) (client : Client)
    (request : CardStorageRequest) : Option CardStorageRequest :=
  let request := { request with Timestamp := formatTime clock "20060102150405" }
  let request := { request with MerchantID := client.MerchantID }
  let request := { request with «Type» := "card-new" }
  let request := { request with
    elementsToHash := [request.Timestamp, request.MerchantID, request.OrderID,
      request.getAmount, request.getCurrency, request.PayerRef,
      request.getCardHolderName, request.getCardNumber] }
  let request := { request with sharedSecret := client.HashSecret }
  match buildSignature request.elementsToHash request.sharedSecret with
  | .error _ => none
  | .ok signature => some { request with Sha1Hash := signature }

/-- Go `CardStorageService.EditCard`, request-preparation stage. -/
def EditCard (clock : String → String) (client : Client)
    (request : CardStorageRequest) : Option CardStorageRequest :=
  let request := { request with Timestamp := formatTime clock "20060102150405" }
  let request := { request with MerchantID := client.MerchantID }
  let request := { request with «Type» := "card-update-card" }
  let request := { request with
    elementsToHash := [request.Timestamp, request.MerchantID, request.PayerRef,
      request.getCardRef, request.getCardExpDate, request.getCardNumber] }
  let request := { request with sharedSecret := client.HashSecret }
  match buildSignature request.elementsToHash request.sharedSecret with
  | .error _ => none
  | .ok signature => some { request with Sha1Hash := signature }

/-- Go `CardStorageService.DeleteCard`, request-preparation stage. -/
def DeleteCard (clock : String → String) (client : Client)
    (request : CardStorageRequest) : Option CardStorageRequest :=
  let request := { request with Timestamp := formatTime clock "20060102150405" }
  let request := { request with MerchantID := client.MerchantID }
  let request := { request with «Type» := "card-cancel-card" }
  let request := { request with
    elementsToHash := [request.Timestamp, request.MerchantID, request.PayerRef,
      request.getCardRef] }
  let request := { request with sharedSecret := client.HashSecret }
  match buildSignature request.elementsToHash request.sharedSecret with
  | .error _ => none
  | .ok signature => some { request with Sha1Hash := signature }

/-- The eight Card Storage operations. -/
inductive Op where
  | authorize
  | validate
  | credit
  | createCustomer
  | editCustomer
  | storeCard
  | editCard
  | deleteCard
  deriving DecidableEq, Fintype

/-- Dispatch from an operation to its Go builder method. -/
def buildOp (op : Op) (clock : String → String) (client : Client)
    (request : CardStorageRequest) : Option CardStorageRequest :=
  match op with
  | .authorize => Authorize clock client request
  | .validate => Validate clock client request
  | .credit => Credit clock client request
  | .createCustomer => CreateCustomer clock client request
  | .editCustomer => EditCustomer clock client request
  | .storeCard => StoreCard clock client request
  | .editCard => EditCard clock client request
  | .deleteCard => DeleteCard clock client request

/-- The literal operation type code each builder assigns. -/
def typeCode (op : Op) : String :=
  match op with
  | .authorize => "receipt-in"
  | .validate => "receipt-in-otb"
  | .credit => "payment-out"
  | .createCustomer => "payer-new"
  | .editCustomer => "payer-edit"
  | .storeCard => "card-new"
  | .editCard => "card-update-card"
  | .deleteCard => "card-cancel-card"

/-! ## The spec's elements-to-hash table (spec.md §4.2)

These two definitions follow the specification's words, not the Go
code, so the builders can be compared against them: the table's
`amount`, `currency`, `cardHolderName`, `cardNumber`, `cardRef` and
`cardExpiry` slots resolve missing optional groups to the empty string
(spec §4.2: "Missing optional groups ... must resolve to empty string
for that field's slot"), and `payerRef` names the request's payer
reference header field, as every other row's `payerRef` does. -/

/-- The ordered elements-to-hash list the spec's §4.2 table gives for
each operation, read off a stamped request. -/
def specElementsToHash (op : Op) (request : CardStorageRequest) : List String :=
  match op with
  | .authorize =>
      [request.Timestamp, request.MerchantID, request.OrderID,
       request.getAmount, request.getCurrency, request.PayerRef]
  | .validate =>
      [request.Timestamp, request.MerchantID, request.OrderID, request.PayerRef]
  | .credit =>
      [request.Timestamp, request.MerchantID, request.OrderID,
       request.getAmount, request.getCurrency, request.PayerRef]
  | .createCustomer =>
      [request.Timestamp, request.MerchantID, request.OrderID,
       request.getAmount, request.getCurrency, request.PayerRef]
  | .editCustomer =>
      [request.Timestamp, request.MerchantID, request.OrderID,
       request.getAmount, request.getCurrency, request.PayerRef]
  | .storeCard =>
      [request.Timestamp, request.MerchantID, request.OrderID,
       request.getAmount, request.getCurrency, request.PayerRef,
       request.getCardHolderName, request.getCardNumber]
  | .editCard =>
      [request.Timestamp, request.MerchantID, request.PayerRef,
       request.getCardRef, request.getCardExpDate, request.getCardNumber]
  | .deleteCard =>
      [request.Timestamp, request.MerchantID, request.PayerRef,
       request.getCardRef]

/-- The spec's secret column: the rebate secret for the credit/payout
operation, the ordinary secret otherwise. -/
def specSecret (op : Op) (client : Client) : String :=
  match op with
  | .credit => client.RebateHashSecret
  | _ => client.HashSecret

/-- The §4.2 table amended to what the code does: identical except that
`CreateCustomer`'s sixth element is the `Payer` group's `ref`
(`request.getPayerRef()`, empty when the group is absent) instead of
the header `payerRef` field. -/
def amendedElementsToHash (op : Op) (request : CardStorageRequest) : List String :=
  match op with
  | .createCustomer =>
      [request.Timestamp, request.MerchantID, request.OrderID,
       request.getAmount, request.getCurrency, request.getPayerRef]
  | _ => specElementsToHash op request

/-! ## Responses and the transmission pipeline (src/unnamed/part_004, 200-276) -/

/-- Go `CardIssuer` struct. -/
structure CardIssuer where
  Bank : String
  Country : String
  CountryCode : String
  Region : String
  deriving DecidableEq

/-- Go `ServiceResponse`, including the embedded (unexported)
`serviceAuthenticator` signing context.  Fields the XML decoder left
untouched are empty strings, exactly as in Go. -/
structure ServiceResponse where
  Timestamp : String := ""
  MerchantID : String := ""
  Account : String := ""
  OrderID : String := ""
  AuthCode : String := ""
  Result : String := ""
  CVNResult : String := ""
  AVSPostcodeResponse : String := ""
  AVSAddressResponse : String := ""
  BatchId : String := ""
  Message : String := ""
  PasRef : String := ""
  TimeTaken : String := ""
  AuthTimeTaken : String := ""
  CardIssuer : Option CardIssuer := none
  Sha1Hash : String := ""
  elementsToHash : List String := []
  sharedSecret : String := ""
  deriving DecidableEq

/-- The parts of Go `*http.Response` the error values read:
`Response.Request.Method`, `Response.Request.URL.Path`,
`Response.StatusCode`. -/
structure HttpResponse where
  Method : String
  URLPath : String
  StatusCode : Nat
  deriving DecidableEq

/-- The error values `transmitRequest` can return: the distinct
`ValidationError{httpResponse}` for a signature mismatch, or an error
propagated from the external encode/send/decode stages. -/
inductive TransmitError where
  | validation (response : HttpResponse)
  | transport (message : String)
  deriving DecidableEq

/-- Go `(*ValidationError).Error()`:
`fmt.Sprintf("Validation Hash Error: method: %v, path: %v, status code:%d", ...)`
over the originating request's method, URL path and status code.
Transport-stage errors keep their own message. -/
def errorMessage : TransmitError → String
  | .validation response =>
      "Validation Hash Error: method: " ++ response.Method ++ ", path: " ++
        response.URLPath ++ ", status code:" ++ toString response.StatusCode
  | .transport message => message

/-- Go `ServiceResponse.validateResponseHash`: recompute the signature
from the response's signing context and compare with the declared
`Sha1Hash`; equal gives `nil`, unequal gives `&ValidationError{httpResponse}`. -/
def validateResponseHash (response : ServiceResponse)
    (httpResponse : HttpResponse) : Option TransmitError :=
  match buildSignature response.elementsToHash response.sharedSecret with
  | .error e => some (.transport e)
  | .ok signature =>
      if signature = response.Sha1Hash then none
      else some (.validation httpResponse)

/-- Go `service.transmitRequest`, from the decoded exchange on.  The
`NewRequest` encode step and the `Do` network/decode step are external
I/O (`net/http`, `encoding/xml`) and are abstracted as the `exchange`
argument: `.error` when either step failed (Go then returns a nil
response and, since `Do` returns a nil `*http.Response` on failure, a
nil HTTP response), `.ok` with the decoded `ServiceResponse` and the
HTTP exchange otherwise.  The validation stage is exactly the Go code:
install the fixed 7-element signing context and the client's ordinary
`HashSecret` on the response, then `validateResponseHash`. -/
def transmitRequest (client : Client)
    (exchange : Except TransmitError (ServiceResponse × HttpResponse)) :
    Option ServiceResponse × Option HttpResponse × Option TransmitError :=
  match exchange with
  | .error err => (none, none, some err)
  | .ok (response, httpResponse) =>
    let response := { response with
      elementsToHash := [response.Timestamp, response.MerchantID, response.OrderID,
        response.Result, response.Message, response.PasRef, response.AuthCode] }
    let response := { response with sharedSecret := client.HashSecret }
    match validateResponseHash response httpResponse with
    | some err => (none, some httpResponse, some err)
    | none => (some response, some httpResponse, none)

/-! ## Wire XML document (struct tags of `CardStorageRequest`, Go `encoding/xml`)

The encoder model follows the struct tags in src/unnamed/part_003:
attributes `type` and `timestamp` on the `request` root, children in
field order, `omitempty` strings skipped when empty, nil pointers
skipped, and unexported fields (the embedded `serviceAuthenticator`)
never serialized. -/

/-- XML text escaping as Go `xml.EscapeText` rewrites characters. -/
def xmlEscapeChar (c : Char) : String :=
  if c = '&' then "&amp;"
  else if c = '<' then "&lt;"
  else if c = '>' then "&gt;"
  else if c = '\'' then "&#39;"
  else if c = '"' then "&#34;"
  else String.singleton c

/-- Escape a whole string for XML character data and attributes. -/
def xmlEscape (s : String) : String :=
  s.data.foldr (fun c acc => xmlEscapeChar c ++ acc) ""

/-- A child element that is always emitted (no `omitempty`). -/
def xmlElem (tag value : String) : String :=
  "<" ++ tag ++ ">" ++ xmlEscape value ++ "</" ++ tag ++ ">"

/-- A child element with `omitempty`: skipped when the value is empty. -/
def xmlElemOpt (tag value : String) : String :=
  if value = "" then "" else xmlElem tag value

/-- Wire form of the `Country` group (`ref` attribute). -/
def marshalCountry : Option Country → String
  | none => ""
  | some country => "<country ref=\"" ++ xmlEscape country.Code ++ "\"></country>"

/-- Wire form of the `Address` group. -/
def marshalAddress : Option Address → String
  | none => ""
  | some address =>
      "<address>" ++ xmlElem "line1" address.Line1 ++ xmlElem "line2" address.Line2 ++
        xmlElem "line3" address.Line3 ++ xmlElem "city" address.City ++
        xmlElem "county" address.County ++ xmlElem "postcode" address.PostCode ++
        marshalCountry address.Country ++ "</address>"

/-- Wire form of the `PhoneNumbers` group. -/
def marshalPhoneNumbers : Option PhoneNumbers → String
  | none => ""
  | some phones =>
      "<phonenumbers>" ++ xmlElem "home" phones.Home ++ xmlElem "work" phones.Work ++
        xmlElem "fax" phones.Fax ++ xmlElem "mobile" phones.Mobile ++ "</phonenumbers>"

/-- Wire form of the `Payer` group (`ref`, `type`, `title` attributes). -/
def marshalPayer : Option Payer → String
  | none => ""
  | some payer =>
      "<payer ref=\"" ++ xmlEscape payer.Ref ++ "\" type=\"" ++
        xmlEscape payer.PayerType ++ "\" title=\"" ++ xmlEscape payer.Title ++ "\">" ++
        xmlElem "firstname" payer.FirstName ++ xmlElem "surname" payer.Surname ++
        xmlElem "company" payer.Company ++ xmlElem "email" payer.Email ++
        xmlElem "dateofbirth" payer.DateOfBirth ++ xmlElem "state" payer.State ++
        xmlElem "passphrase" payer.PassPhrase ++ xmlElem "vatnumber" payer.VatNumber ++
        xmlElem "varref" payer.VariableReference ++ xmlElem "custnum" payer.CustomerNumber ++
        marshalAddress payer.Address ++ marshalPhoneNumbers payer.PhoneNumbers ++
        "</payer>"

/-- Wire form of the `Amount` group (`currency` attribute, chardata value). -/
def marshalAmount : Option Amount → String
  | none => ""
  | some amount =>
      "<amount currency=\"" ++ xmlEscape amount.Currency ++ "\">" ++
        xmlEscape amount.Amount ++ "</amount>"

/-- Wire form of the `AutoSettle` group (`flag` attribute). -/
def marshalAutoSettle : Option AutoSettle → String
  | none => ""
  | some autoSettle => "<autosettle flag=\"" ++ xmlEscape autoSettle.Flag ++ "\"></autosettle>"

/-- Wire form of the `PaymentData` group. -/
def marshalPaymentData : Option PaymentData → String
  | none => ""
  | some paymentData =>
      "<paymentdata><cvn>" ++ xmlElem "number" paymentData.CVN.Number ++
        "</cvn></paymentdata>"

/-- Wire form of the `Card` group. -/
def marshalCard : Option Card → String
  | none => ""
  | some card =>
      "<card>" ++ xmlElem "ref" card.Ref ++ xmlElem "payerref" card.PayerRef ++
        xmlElem "number" card.Number ++ xmlElem "expdate" card.ExpDate ++
        xmlElem "chname" card.CardHolderName ++ xmlElem "type" card.«Type» ++ "</card>"

/-- The wire XML document of a `CardStorageRequest` per its struct
tags.  The unexported `elementsToHash` and `sharedSecret` fields have
no tags and are not read at all. -/
def marshalCardStorageRequest (request : CardStorageRequest) : String :=
  "<request type=\"" ++ xmlEscape request.«Type» ++ "\" timestamp=\"" ++
    xmlEscape request.Timestamp ++ "\">" ++
    xmlElem "merchantid" request.MerchantID ++
    xmlElemOpt "account" request.Account ++
    xmlElemOpt "channel" request.Channel ++
    xmlElem "orderid" request.OrderID ++
    xmlElem "payerref" request.PayerRef ++
    xmlElemOpt "paymentmethod" request.PaymentMethod ++
    xmlElem "sha1hash" request.Sha1Hash ++
    marshalAmount request.Amount ++
    marshalAutoSettle request.AutoSettle ++
    marshalPaymentData request.PaymentData ++
    marshalPayer request.Payer ++
    marshalCard request.Card ++
    "</request>"

/-! ## Concrete fixtures used by witnesses and counterexamples -/

/-- A fixed injected time source, as the tests monkey-patch `Now`. -/
def fixedClock : String → String :=
  fun _ => "20180613141207"

/-- A concrete HTTP exchange: POST to the default service path,
status 200. -/
def exchangeFixture : HttpResponse :=
  { Method := "POST", URLPath := "/epage-remote.cgi", StatusCode := 200 }

/-- A decoded response whose declared hash equals the chained hash of
its (all-empty) 7-element validation context under the default
secret. -/
def matchingResponse : ServiceResponse :=
  { Sha1Hash := "220d36220a9051244401ffd1a23bb3464db0b336" }

/-- A decoded response whose declared hash does not match. -/
def mismatchedResponse : ServiceResponse :=
  { Sha1Hash := "0000000000000000000000000000000000000000" }

/-- The `matchingResponse` after `transmitRequest` installs the fixed
7-element validation context and the default ordinary secret. -/
def validatedMatchingResponse : ServiceResponse :=
  { matchingResponse with
    elementsToHash := ["", "", "", "", "", "", ""],
    sharedSecret := "Po8lRRT67a" }

/-- A concrete `CreateCustomer` input: payer reference header set, no
`Payer` group. -/
def customerRequest : CardStorageRequest :=
  { OrderID := "order-1", PayerRef := "payer-1" }

/-- A concrete stored-card group. -/
def cardFixture : Card :=
  { Ref := "card-1", PayerRef := "", Number := "4263970000005262",
    ExpDate := "0519", CardHolderName := "James Mason", «Type» := "" }

/-- A concrete request carrying a `Card` group. -/
def cardRequest : CardStorageRequest :=
  { OrderID := "order-1", PayerRef := "payer-1", Card := some cardFixture }

/-- The request `DeleteCard` produces from `customerRequest` under
`fixedClock` and the default client. -/
def deleteCardResult : CardStorageRequest :=
  { «Type» := "card-cancel-card", Timestamp := "20180613141207",
    MerchantID := "realexsandbox", OrderID := "order-1", PayerRef := "payer-1",
    Sha1Hash := "eef544f6371a8b8c6b8bbf2fe3d09c32f8697b9d",
    elementsToHash := ["20180613141207", "realexsandbox", "payer-1", ""],
    sharedSecret := "Po8lRRT67a" }

/-- The request `EditCard` produces from `cardRequest` under
`fixedClock` and the default client. -/
def editCardResult : CardStorageRequest :=
  { «Type» := "card-update-card", Timestamp := "20180613141207",
    MerchantID := "realexsandbox", OrderID := "order-1", PayerRef := "payer-1",
    Card := some cardFixture,
    Sha1Hash := "980f3f384e3f3e6918481752ae2076daf21b0f2e",
    elementsToHash := ["20180613141207", "realexsandbox", "payer-1", "card-1",
      "0519", "4263970000005262"],
    sharedSecret := "Po8lRRT67a" }

end GlobalPayments

namespace GlobalPayments

/-! ## General lemmas about the signature engine -/

theorem hexDigit_mem (n : Nat) : hexDigit n ∈ hexTable := by
  by_cases h : n < 16
  · interval_cases n <;> decide
  · have hlen : hexTable.length = 16 := by decide
    have hle : hexTable.length ≤ n := by omega
    rw [hexDigit, List.getD_eq_default _ _ hle]
    decide

theorem hexChars_length (bytes : List Nat) :
    (hexChars bytes).length = 2 * bytes.length := by
  induction bytes with
  | nil => rfl
  | cons b rest ih =>
      simp only [hexChars, List.foldr_cons, List.length_cons] at ih ⊢
      omega

theorem hexChars_mem (bytes : List Nat) :
    ∀ c ∈ hexChars bytes, c ∈ hexTable := by
  induction bytes with
  | nil => intro c hc; simp [hexChars] at hc
  | cons b rest ih =>
      intro c hc
      simp only [hexChars, List.foldr_cons, List.mem_cons] at hc
      rcases hc with rfl | rfl | hc
      · exact hexDigit_mem _
      · exact hexDigit_mem _
      · exact ih c hc

theorem hexEncode_length (bytes : List Nat) :
    (hexEncode bytes).length = 2 * bytes.length :=
  hexChars_length bytes

theorem sha1_length (msg : List Nat) : (sha1 msg).length = 20 := by
  rcases hEq : (chunks (pad msg)).foldl compress initH with ⟨h0, h1, h2, h3, h4⟩
  simp [sha1, hEq, wordBytes]

theorem hexEncode_sha1_length (msg : List Nat) :
    (hexEncode (sha1 msg)).length = 40 := by
  have h1 := hexEncode_length (sha1 msg)
  have h2 := sha1_length msg
  omega

theorem hexEncode_data_mem (bytes : List Nat) (s : String)
    (h : hexEncode bytes = s) : ∀ c ∈ s.data, c ∈ hexTable := by
  subst h
  exact hexChars_mem bytes

/-- Unfolding equation for `buildSignature`: the chained hash always
succeeds with the double-SHA-1 hex formula. -/
theorem buildSignature_eq (elements : List String) (secret : String) :
    buildSignature elements secret =
      .ok (hexEncode (sha1 (strBytes
        (hexEncode (sha1 (strBytes (String.intercalate "." elements))) ++
          "." ++ secret)))) :=
  rfl

/-- The transmission pipeline reads the client only through its
ordinary `HashSecret`. -/
theorem transmitRequest_hashSecret_only (c1 c2 : Client)
    (h : c1.HashSecret = c2.HashSecret)
    (exchange : Except TransmitError (ServiceResponse × HttpResponse)) :
    transmitRequest c1 exchange = transmitRequest c2 exchange := by
  cases exchange with
  | error e => rfl
  | ok p =>
      obtain ⟨response, httpResponse⟩ := p
      simp only [transmitRequest]
      rw [h]

/-- Case analysis for `transmitRequest` on a decoded exchange, with the
recomputed signature abstracted to a variable. -/
theorem transmitRequest_ok_eq (client : Client) (response : ServiceResponse)
    (httpResponse : HttpResponse) (sig : String)
    (hsig : buildSignature
        [response.Timestamp, response.MerchantID, response.OrderID,
         response.Result, response.Message, response.PasRef, response.AuthCode]
        client.HashSecret = .ok sig) :
    transmitRequest client (.ok (response, httpResponse)) =
      if sig = response.Sha1Hash then
        (some { response with
          elementsToHash := [response.Timestamp, response.MerchantID,
            response.OrderID, response.Result, response.Message,
            response.PasRef, response.AuthCode],
          sharedSecret := client.HashSecret },
         some httpResponse, none)
      else
        (none, some httpResponse, some (.validation httpResponse)) := by
  simp only [transmitRequest, validateResponseHash]
  rw [hsig]
  by_cases hc : sig = response.Sha1Hash <;> simp [hc]

/-! ## The claims -/

/-- C1: for every ordered list of strings and every secret (the empty
list included), `buildSignature` returns, without error,
`hexEncode(SHA1(hexEncode(SHA1(join(elements, "."))) ++ "." ++ secret))`,
a 40-character string over the lowercase hex alphabet. -/
theorem buildSignature_contract (elements : List String) (secret : String) :
    buildSignature elements secret =
      .ok (hexEncode (sha1 (strBytes
        (hexEncode (sha1 (strBytes (String.intercalate "." elements))) ++
          "." ++ secret)))) ∧
    ∀ signature, buildSignature elements secret = .ok signature →
      signature.length = 40 ∧ ∀ c ∈ signature.data, c ∈ hexTable := by
  refine ⟨rfl, ?_⟩
  intro signature h
  rw [buildSignature_eq, Except.ok.injEq] at h
  constructor
  · subst h
    exact hexEncode_sha1_length _
  · exact hexEncode_data_mem _ _ h

/-- Witness for C1 at the spec's known vector. -/
theorem buildSignature_contract_witness :
    ("dbd4aebd6ead0f3c2e56017aef55135c4efd3aba" : String).length = 40 ∧
    ∀ c ∈ ("dbd4aebd6ead0f3c2e56017aef55135c4efd3aba" : String).data,
      c ∈ hexTable :=
  (buildSignature_contract ["elem1", "elem2"] "test").2 _ (by decide)

/-- C6: the known vector: elements `["elem1","elem2"]` with secret
`"test"` produce exactly `dbd4aebd6ead0f3c2e56017aef55135c4efd3aba`. -/
theorem buildSignature_known_vector :
    buildSignature ["elem1", "elem2"] "test" =
      .ok "dbd4aebd6ead0f3c2e56017aef55135c4efd3aba" := by
  decide

/-- C9: the chained-signature computation is deterministic and
stateless: two invocations with identical inputs return the identical
result. -/
theorem buildSignature_deterministic (elements1 elements2 : List String)
    (secret1 secret2 : String) (hElems : elements1 = elements2)
    (hSecret : secret1 = secret2) :
    buildSignature elements1 secret1 = buildSignature elements2 secret2 := by
  rw [hElems, hSecret]

/-- Witness for C9 at a concrete input. -/
theorem buildSignature_deterministic_witness :
    buildSignature ["elem1", "elem2"] "test" =
      buildSignature ["elem1", "elem2"] "test" :=
  buildSignature_deterministic ["elem1", "elem2"] ["elem1", "elem2"]
    "test" "test" rfl rfl

/-- Counterexample to C2 as stated: on a `CreateCustomer` request whose
payer reference header is `payer-1` and whose `Payer` group is absent,
the code signs the empty string in the sixth slot, not the table's
`payerRef`. -/
theorem createCustomer_table_counterexample :
    (CreateCustomer fixedClock defaultClient customerRequest).map
        CardStorageRequest.elementsToHash =
      some ["20180613141207", "realexsandbox", "order-1", "", "", ""] ∧
    (CreateCustomer fixedClock defaultClient customerRequest).map
        (specElementsToHash .createCustomer) =
      some ["20180613141207", "realexsandbox", "order-1", "", "", "payer-1"] ∧
    (["20180613141207", "realexsandbox", "order-1", "", "", ""] : List String) ≠
      ["20180613141207", "realexsandbox", "order-1", "", "", "payer-1"] := by
  refine ⟨by decide, by decide, by decide⟩

/-- C2 (amended): whenever one of the eight builders completes, the
ordered elements-to-hash list it signs is the §4.2 table's list for
that operation — except that `CreateCustomer`'s sixth element is the
`Payer` group's `ref` (empty when the group is absent) rather than the
header `payerRef` field — and the shared secret is the rebate secret
for Credit and the ordinary secret for the other seven operations. -/
theorem buildOp_signs_table (op : Op) (clock : String → String)
    (client : Client) (request result : CardStorageRequest)
    (h : buildOp op clock client request = some result) :
    result.elementsToHash = amendedElementsToHash op result ∧
    result.sharedSecret = specSecret op client := by
  cases op
  case authorize =>
    rcases hA : request.Amount with _ | amount <;>
      simp only [buildOp, Authorize, buildSignature_eq, hA] at h
    · exact Option.noConfusion h
    · have hr := Option.some.inj h
      subst hr
      simp [amendedElementsToHash, specElementsToHash, specSecret,
        CardStorageRequest.getAmount, CardStorageRequest.getCurrency, hA]
  case validate =>
    simp only [buildOp, Validate, buildSignature_eq] at h
    have hr := Option.some.inj h
    subst hr
    simp [amendedElementsToHash, specElementsToHash, specSecret]
  case credit =>
    simp only [buildOp, Credit, buildSignature_eq] at h
    have hr := Option.some.inj h
    subst hr
    simp [amendedElementsToHash, specElementsToHash, specSecret,
      CardStorageRequest.getAmount, CardStorageRequest.getCurrency]
  case createCustomer =>
    simp only [buildOp, CreateCustomer, buildSignature_eq] at h
    have hr := Option.some.inj h
    subst hr
    simp [amendedElementsToHash, specSecret, CardStorageRequest.getAmount,
      CardStorageRequest.getCurrency, CardStorageRequest.getPayerRef]
  case editCustomer =>
    simp only [buildOp, EditCustomer, buildSignature_eq] at h
    have hr := Option.some.inj h
    subst hr
    simp [amendedElementsToHash, specElementsToHash, specSecret,
      CardStorageRequest.getAmount, CardStorageRequest.getCurrency]
  case storeCard =>
    simp only [buildOp, StoreCard, buildSignature_eq] at h
    have hr := Option.some.inj h
    subst hr
    simp [amendedElementsToHash, specElementsToHash, specSecret,
      CardStorageRequest.getAmount, CardStorageRequest.getCurrency,
      CardStorageRequest.getCardHolderName, CardStorageRequest.getCardNumber]
  case editCard =>
    simp only [buildOp, EditCard, buildSignature_eq] at h
    have hr := Option.some.inj h
    subst hr
    simp [amendedElementsToHash, specElementsToHash, specSecret,
      CardStorageRequest.getCardRef, CardStorageRequest.getCardExpDate,
      CardStorageRequest.getCardNumber]
  case deleteCard =>
    simp only [buildOp, DeleteCard, buildSignature_eq] at h
    have hr := Option.some.inj h
    subst hr
    simp [amendedElementsToHash, specElementsToHash, specSecret,
      CardStorageRequest.getCardRef]

/-- Witness for C2 (amended) at a concrete `Validate` build. -/
theorem buildOp_signs_table_witness :
    buildOp .validate fixedClock defaultClient customerRequest =
      some { «Type» := "receipt-in-otb", Timestamp := "20180613141207",
             MerchantID := "realexsandbox", OrderID := "order-1",
             PayerRef := "payer-1",
             Sha1Hash := "2e1474573e8b9f50f07625d4ca5bba6c4d551374",
             elementsToHash := ["20180613141207", "realexsandbox", "order-1",
               "payer-1"],
             sharedSecret := "Po8lRRT67a" } ∧
    (({ «Type» := "receipt-in-otb", Timestamp := "20180613141207",
        MerchantID := "realexsandbox", OrderID := "order-1",
        PayerRef := "payer-1",
        Sha1Hash := "2e1474573e8b9f50f07625d4ca5bba6c4d551374",
        elementsToHash := ["20180613141207", "realexsandbox", "order-1",
          "payer-1"],
        sharedSecret := "Po8lRRT67a" } : CardStorageRequest).elementsToHash =
      amendedElementsToHash .validate
        { «Type» := "receipt-in-otb", Timestamp := "20180613141207",
          MerchantID := "realexsandbox", OrderID := "order-1",
          PayerRef := "payer-1",
          Sha1Hash := "2e1474573e8b9f50f07625d4ca5bba6c4d551374",
          elementsToHash := ["20180613141207", "realexsandbox", "order-1",
            "payer-1"],
          sharedSecret := "Po8lRRT67a" } ∧
     ({ «Type» := "receipt-in-otb", Timestamp := "20180613141207",
        MerchantID := "realexsandbox", OrderID := "order-1",
        PayerRef := "payer-1",
        Sha1Hash := "2e1474573e8b9f50f07625d4ca5bba6c4d551374",
        elementsToHash := ["20180613141207", "realexsandbox", "order-1",
          "payer-1"],
        sharedSecret := "Po8lRRT67a" } : CardStorageRequest).sharedSecret =
      specSecret .validate defaultClient) :=
  ⟨by decide,
   buildOp_signs_table .validate fixedClock defaultClient customerRequest _
     (by decide)⟩

/-- C7: every builder, before signing, sets the request's type
attribute to a literal operation code, pairwise distinct across the
eight operations with Credit's code being `payment-out`, sets the
timestamp to the injected time source's current time formatted with
the 14-digit layout `20060102150405`, and sets the merchant id from
the client configuration. -/
theorem buildOp_stamps (op : Op) (clock : String → String) (client : Client)
    (request result : CardStorageRequest)
    (h : buildOp op clock client request = some result) :
    (result.«Type» = typeCode op ∧
     result.Timestamp = formatTime clock timestampLayout ∧
     result.MerchantID = client.MerchantID) ∧
    (∀ op1 op2 : Op, typeCode op1 = typeCode op2 → op1 = op2) ∧
    typeCode .credit = "payment-out" ∧
    timestampLayout.length = 14 ∧
    (∀ c ∈ timestampLayout.data, c.isDigit) := by
  refine ⟨?_, by decide, by decide, by decide, by decide⟩
  cases op
  case authorize =>
    rcases hA : request.Amount with _ | amount <;>
      simp only [buildOp, Authorize, buildSignature_eq, hA] at h
    · exact Option.noConfusion h
    · have hr := Option.some.inj h
      subst hr
      exact ⟨rfl, rfl, rfl⟩
  case validate =>
    simp only [buildOp, Validate, buildSignature_eq] at h
    have hr := Option.some.inj h
    subst hr
    exact ⟨rfl, rfl, rfl⟩
  case credit =>
    simp only [buildOp, Credit, buildSignature_eq] at h
    have hr := Option.some.inj h
    subst hr
    exact ⟨rfl, rfl, rfl⟩
  case createCustomer =>
    simp only [buildOp, CreateCustomer, buildSignature_eq] at h
    have hr := Option.some.inj h
    subst hr
    exact ⟨rfl, rfl, rfl⟩
  case editCustomer =>
    simp only [buildOp, EditCustomer, buildSignature_eq] at h
    have hr := Option.some.inj h
    subst hr
    exact ⟨rfl, rfl, rfl⟩
  case storeCard =>
    simp only [buildOp, StoreCard, buildSignature_eq] at h
    have hr := Option.some.inj h
    subst hr
    exact ⟨rfl, rfl, rfl⟩
  case editCard =>
    simp only [buildOp, EditCard, buildSignature_eq] at h
    have hr := Option.some.inj h
    subst hr
    exact ⟨rfl, rfl, rfl⟩
  case deleteCard =>
    simp only [buildOp, DeleteCard, buildSignature_eq] at h
    have hr := Option.some.inj h
    subst hr
    exact ⟨rfl, rfl, rfl⟩

/-- Witness for C7 at a concrete `DeleteCard` build. -/
theorem buildOp_stamps_witness :
    (deleteCardResult.«Type» = typeCode .deleteCard ∧
     deleteCardResult.Timestamp = formatTime fixedClock timestampLayout ∧
     deleteCardResult.MerchantID = defaultClient.MerchantID) ∧
    (∀ op1 op2 : Op, typeCode op1 = typeCode op2 → op1 = op2) ∧
    typeCode .credit = "payment-out" ∧
    timestampLayout.length = 14 ∧
    (∀ c ∈ timestampLayout.data, c.isDigit) :=
  buildOp_stamps .deleteCard fixedClock defaultClient customerRequest
    deleteCardResult (by decide)

/-- C10: every builder leaves all request fields other than `Type`,
`Timestamp`, `MerchantID`, `Sha1Hash` and the unexported signing
context untouched, and the signing-context fields are never
serialized into the wire XML document. -/
theorem buildOp_frame (op : Op) (clock : String → String) (client : Client)
    (request result : CardStorageRequest)
    (h : buildOp op clock client request = some result) :
    result.Account = request.Account ∧
    result.Channel = request.Channel ∧
    result.OrderID = request.OrderID ∧
    result.PayerRef = request.PayerRef ∧
    result.PaymentMethod = request.PaymentMethod ∧
    result.Amount = request.Amount ∧
    result.AutoSettle = request.AutoSettle ∧
    result.PaymentData = request.PaymentData ∧
    result.Payer = request.Payer ∧
    result.Card = request.Card ∧
    (∀ (q : CardStorageRequest) (e : List String) (s : String),
      marshalCardStorageRequest { q with elementsToHash := e, sharedSecret := s } =
        marshalCardStorageRequest q) := by
  cases op
  case authorize =>
    rcases hA : request.Amount with _ | amount <;>
      simp only [buildOp, Authorize, buildSignature_eq, hA] at h
    · exact Option.noConfusion h
    · have hr := Option.some.inj h
      subst hr
      exact ⟨rfl, rfl, rfl, rfl, rfl, rfl, rfl, rfl, rfl, rfl,
        fun q e s => rfl⟩
  case validate =>
    simp only [buildOp, Validate, buildSignature_eq] at h
    have hr := Option.some.inj h
    subst hr
    exact ⟨rfl, rfl, rfl, rfl, rfl, rfl, rfl, rfl, rfl, rfl, fun q e s => rfl⟩
  case credit =>
    simp only [buildOp, Credit, buildSignature_eq] at h
    have hr := Option.some.inj h
    subst hr
    exact ⟨rfl, rfl, rfl, rfl, rfl, rfl, rfl, rfl, rfl, rfl, fun q e s => rfl⟩
  case createCustomer =>
    simp only [buildOp, CreateCustomer, buildSignature_eq] at h
    have hr := Option.some.inj h
    subst hr
    exact ⟨rfl, rfl, rfl, rfl, rfl, rfl, rfl, rfl, rfl, rfl, fun q e s => rfl⟩
  case editCustomer =>
    simp only [buildOp, EditCustomer, buildSignature_eq] at h
    have hr := Option.some.inj h
    subst hr
    exact ⟨rfl, rfl, rfl, rfl, rfl, rfl, rfl, rfl, rfl, rfl, fun q e s => rfl⟩
  case storeCard =>
    simp only [buildOp, StoreCard, buildSignature_eq] at h
    have hr := Option.some.inj h
    subst hr
    exact ⟨rfl, rfl, rfl, rfl, rfl, rfl, rfl, rfl, rfl, rfl, fun q e s => rfl⟩
  case editCard =>
    simp only [buildOp, EditCard, buildSignature_eq] at h
    have hr := Option.some.inj h
    subst hr
    exact ⟨rfl, rfl, rfl, rfl, rfl, rfl, rfl, rfl, rfl, rfl, fun q e s => rfl⟩
  case deleteCard =>
    simp only [buildOp, DeleteCard, buildSignature_eq] at h
    have hr := Option.some.inj h
    subst hr
    exact ⟨rfl, rfl, rfl, rfl, rfl, rfl, rfl, rfl, rfl, rfl, fun q e s => rfl⟩

/-- Witness for C10 at a concrete `EditCard` build. -/
theorem buildOp_frame_witness :
    editCardResult.Account = cardRequest.Account ∧
    editCardResult.Channel = cardRequest.Channel ∧
    editCardResult.OrderID = cardRequest.OrderID ∧
    editCardResult.PayerRef = cardRequest.PayerRef ∧
    editCardResult.PaymentMethod = cardRequest.PaymentMethod ∧
    editCardResult.Amount = cardRequest.Amount ∧
    editCardResult.AutoSettle = cardRequest.AutoSettle ∧
    editCardResult.PaymentData = cardRequest.PaymentData ∧
    editCardResult.Payer = cardRequest.Payer ∧
    editCardResult.Card = cardRequest.Card ∧
    (∀ (q : CardStorageRequest) (e : List String) (s : String),
      marshalCardStorageRequest { q with elementsToHash := e, sharedSecret := s } =
        marshalCardStorageRequest q) :=
  buildOp_frame .editCard fixedClock defaultClient cardRequest editCardResult
    (by decide)

/-- C4 evaluated at the failing input: `Authorize` on a request with no
`Amount` group dereferences the nil pointer (a Go runtime panic,
modeled `none`) instead of signing empty amount/currency slots, while
the same request with an explicitly empty `Amount` group builds a
signed request. -/
theorem authorize_nil_amount_diverges :
    Authorize fixedClock defaultClient customerRequest = none ∧
    (Authorize fixedClock defaultClient
        { customerRequest with
          Amount := some { Amount := "", Currency := "" } }).isSome = true :=
  ⟨rfl, by decide⟩

/-- C3: on every successfully decoded exchange, regardless of
operation, `transmitRequest` validates against exactly the ordered
7-tuple {timestamp, merchant id, order id, result, message, pasref,
auth code} signed with the client's ordinary secret: validation
succeeds precisely when the chained hash of that context equals the
declared `sha1hash`; the outcome never depends on the rebate secret;
and the declared `sha1hash` is never among the hashed elements — the
context and acceptance condition are unchanged whichever value the
`sha1hash` field carries. -/
theorem transmitRequest_validation_context (client : Client)
    (response : ServiceResponse) (httpResponse : HttpResponse) :
    ((transmitRequest client (.ok (response, httpResponse))).2.2 = none ↔
      buildSignature
        [response.Timestamp, response.MerchantID, response.OrderID,
         response.Result, response.Message, response.PasRef, response.AuthCode]
        client.HashSecret = .ok response.Sha1Hash) ∧
    (∀ rebate, transmitRequest { client with RebateHashSecret := rebate }
        (.ok (response, httpResponse)) =
      transmitRequest client (.ok (response, httpResponse))) ∧
    (∀ x, ((transmitRequest client
        (.ok ({ response with Sha1Hash := x }, httpResponse))).2.2 = none ↔
      buildSignature
        [response.Timestamp, response.MerchantID, response.OrderID,
         response.Result, response.Message, response.PasRef, response.AuthCode]
        client.HashSecret = .ok x)) := by
  obtain ⟨sig, hsig⟩ : ∃ s, buildSignature
      [response.Timestamp, response.MerchantID, response.OrderID,
       response.Result, response.Message, response.PasRef, response.AuthCode]
      client.HashSecret = .ok s :=
    ⟨_, buildSignature_eq _ _⟩
  refine ⟨?_, fun rebate =>
    transmitRequest_hashSecret_only { client with RebateHashSecret := rebate }
      client rfl (.ok (response, httpResponse)), fun x => ?_⟩
  · rw [transmitRequest_ok_eq client response httpResponse sig hsig, hsig,
      Except.ok.injEq]
    split
    next hcond => simp [hcond]
    next hcond => simp [hcond]
  · rw [transmitRequest_ok_eq client { response with Sha1Hash := x }
      httpResponse sig hsig, hsig, Except.ok.injEq]
    split
    next hcond => simp [hcond]
    next hcond => simp [hcond]

/-- Witness for C3: a matching response passes validation under the
default client. -/
theorem transmitRequest_validation_context_witness :
    (transmitRequest defaultClient
      (.ok (matchingResponse, exchangeFixture))).2.2 = none :=
  (transmitRequest_validation_context defaultClient matchingResponse
    exchangeFixture).1.mpr (by decide)

/-- C5: when a decoded response's declared `sha1hash` differs from the
recomputed signature, `transmitRequest` returns a nil domain response,
the raw HTTP response, and a distinct `ValidationError` whose message
carries the originating request's method, URL path and status code;
when they agree it returns the decoded response (its signing context
installed), the HTTP response, and a nil error. -/
theorem transmitRequest_error_handling (client : Client)
    (response : ServiceResponse) (httpResponse : HttpResponse) :
    (buildSignature
        [response.Timestamp, response.MerchantID, response.OrderID,
         response.Result, response.Message, response.PasRef, response.AuthCode]
        client.HashSecret ≠ .ok response.Sha1Hash →
      transmitRequest client (.ok (response, httpResponse)) =
        (none, some httpResponse, some (.validation httpResponse)) ∧
      errorMessage (.validation httpResponse) =
        "Validation Hash Error: method: " ++ httpResponse.Method ++
          ", path: " ++ httpResponse.URLPath ++ ", status code:" ++
          toString httpResponse.StatusCode) ∧
    (buildSignature
        [response.Timestamp, response.MerchantID, response.OrderID,
         response.Result, response.Message, response.PasRef, response.AuthCode]
        client.HashSecret = .ok response.Sha1Hash →
      transmitRequest client (.ok (response, httpResponse)) =
        (some { response with
            elementsToHash := [response.Timestamp, response.MerchantID,
              response.OrderID, response.Result, response.Message,
              response.PasRef, response.AuthCode],
            sharedSecret := client.HashSecret },
         some httpResponse, none)) := by
  obtain ⟨sig, hsig⟩ : ∃ s, buildSignature
      [response.Timestamp, response.MerchantID, response.OrderID,
       response.Result, response.Message, response.PasRef, response.AuthCode]
      client.HashSecret = .ok s :=
    ⟨_, buildSignature_eq _ _⟩
  constructor
  · intro h
    have hne : sig ≠ response.Sha1Hash := fun he => h (he ▸ hsig)
    rw [transmitRequest_ok_eq client response httpResponse sig hsig, if_neg hne]
    exact ⟨rfl, rfl⟩
  · intro h
    have heq : sig = response.Sha1Hash :=
      Except.ok.inj (hsig.symm.trans h)
    rw [transmitRequest_ok_eq client response httpResponse sig hsig, if_pos heq]

/-- Witness for C5: the mismatch branch at a wrong declared hash and
the success branch at the matching fixture, under the default client. -/
theorem transmitRequest_error_handling_witness :
    (transmitRequest defaultClient (.ok (mismatchedResponse, exchangeFixture)) =
        (none, some exchangeFixture, some (.validation exchangeFixture)) ∧
      errorMessage (.validation exchangeFixture) =
        "Validation Hash Error: method: " ++ exchangeFixture.Method ++
          ", path: " ++ exchangeFixture.URLPath ++ ", status code:" ++
          toString exchangeFixture.StatusCode) ∧
    transmitRequest defaultClient (.ok (matchingResponse, exchangeFixture)) =
      (some validatedMatchingResponse, some exchangeFixture, none) :=
  ⟨(transmitRequest_error_handling defaultClient mismatchedResponse
      exchangeFixture).1 (by decide),
   (transmitRequest_error_handling defaultClient matchingResponse
      exchangeFixture).2 (by decide)⟩

/-- C8: `NewClient` installs defaults, applies the option functions in
the order given (a left fold), and then validates: it returns an error
(and no client) exactly when the resulting base URL's path ends in
`/`; otherwise it returns the folded configuration. -/
theorem NewClient_spec (options : List (Client → Client)) :
    (hasSuffix (options.foldl (fun c option => option c)
        defaultClient).BaseURL.Path "/" = false →
      NewClient options =
        .ok (options.foldl (fun c option => option c) defaultClient)) ∧
    (hasSuffix (options.foldl (fun c option => option c)
        defaultClient).BaseURL.Path "/" = true →
      NewClient options = .error "baseURL contains a trailing slash") ∧
    (∀ client, NewClient options = .ok client →
      client = options.foldl (fun c option => option c) defaultClient ∧
      hasSuffix client.BaseURL.Path "/" = false) := by
  refine ⟨fun h => ?_, fun h => ?_, fun client h => ?_⟩
  · simp [NewClient, h]
  · simp [NewClient, h]
  · rcases hE : hasSuffix (options.foldl (fun c option => option c)
        defaultClient).BaseURL.Path "/"
    · simp only [NewClient, hE, Bool.false_eq_true, if_false,
        Except.ok.injEq] at h
      subst h
      exact ⟨rfl, hE⟩
    · simp [NewClient, hE] at h

/-- Witness for C8: no options give the default client back; an option
that sets a path with a trailing slash makes construction fail. -/
theorem NewClient_spec_witness :
    NewClient [] = .ok defaultClient ∧
    NewClient
        [fun c => { c with
          BaseURL := { Scheme := "https", Host := "example.test",
                       Path := "/api/" } }] =
      .error "baseURL contains a trailing slash" :=
  ⟨(NewClient_spec []).1 (by decide),
   (NewClient_spec
      [fun c => { c with
        BaseURL := { Scheme := "https", Host := "example.test",
                     Path := "/api/" } }]).2.1 (by decide)⟩

end GlobalPayments
